import Mathlib

/-!
Shallow embedding of the IMAP Email Synchronization System core
(EmailCategorizationService, ElasticsearchService, IMAPSyncManager
processEmail / syncRecentEmails, NotificationService), with theorems
checking the natural-language specification against the code.
-/

namespace IMAPSync

/-- The closed set of category labels (type CategoryLabel in src/types). -/
inductive CategoryLabel where
  | INTERESTED
  | MEETING_BOOKED
  | NOT_INTERESTED
  | SPAM
  | OUT_OF_OFFICE
deriving DecidableEq, Repr

/-- The literal token the source uses for each category label. -/
def categoryToken : CategoryLabel → String
  | .INTERESTED => "INTERESTED"
  | .MEETING_BOOKED => "MEETING_BOOKED"
  | .NOT_INTERESTED => "NOT_INTERESTED"
  | .SPAM => "SPAM"
  | .OUT_OF_OFFICE => "OUT_OF_OFFICE"

/-- The array validCategories of EmailCategorizationService.classifyEmail,
in source order: INTERESTED, MEETING_BOOKED, NOT_INTERESTED, SPAM,
OUT_OF_OFFICE. -/
def validCategories : List CategoryLabel :=
  [.INTERESTED, .MEETING_BOOKED, .NOT_INTERESTED, .SPAM, .OUT_OF_OFFICE]

/-- Decides whether the char list needle is an initial segment of hay. -/
def startsList : List Char → List Char → Bool
  | [], _ => true
  | _ :: _, [] => false
  | a :: as, b :: bs => a == b && startsList as bs

/-- Model of JavaScript String.prototype.includes: substring containment
of needle in hay, over char lists. -/
def hasSubstr : List Char → List Char → Bool
  | [], needle => needle.isEmpty
  | h :: t, needle => startsList needle (h :: t) || hasSubstr t needle

/-- Whitespace test used by the model of JavaScript trim. -/
def isJsSpace (c : Char) : Bool :=
  c == ' ' || c == '\t' || c == '\n' || c == '\r'

/-- Model of JavaScript String.prototype.trim: strips leading and
trailing whitespace. -/
def jsTrim (s : String) : String :=
  String.mk (((s.data.dropWhile isJsSpace).reverse.dropWhile isJsSpace).reverse)

/-- Model of JavaScript String.prototype.toUpperCase (ASCII case map). -/
def jsToUpperCase (s : String) : String :=
  String.mk (s.data.map Char.toUpper)

/-- Model of JavaScript String.prototype.toLowerCase (ASCII case map). -/
def jsToLowerCase (s : String) : String :=
  String.mk (s.data.map Char.toLower)

/-- The category-extraction loop of classifyEmail
(src/src/services/EmailCategorizationService.ts, lines 79-84): scan
validCategories in order and return the first whose token occurs as a
substring of the text. -/
def findCat (text : String) : Option CategoryLabel :=
  validCategories.find? (fun c => hasSubstr text.data (categoryToken c).data)

/-- Mapping of a raw classifier response to a category
(EmailCategorizationService.classifyEmail, success path, lines 67-88):
trim and upper-case the raw response, scan for a category token by
substring containment, and default to SPAM when none is found. -/
def mapResponse (rawResponse : String) : CategoryLabel :=
  match findCat (jsToUpperCase (jsTrim rawResponse)) with
  | some c => c
  | none => .SPAM

/-- The deterministic subject keyword rules of the catch branch of
classifyEmail (lines 97-105): out of office, meeting confirmed,
make money fast, tried in that order on the lower-cased subject. -/
def subjectFallbackRule (subject : String) : Option CategoryLabel :=
  let s := jsToLowerCase subject
  if hasSubstr s.data ("out of office").data then some .OUT_OF_OFFICE
  else if hasSubstr s.data ("meeting confirmed").data then some .MEETING_BOOKED
  else if hasSubstr s.data ("make money fast").data then some .SPAM
  else none

/-- classifyEmail (EmailCategorizationService.ts lines 24-108), with the
remote Gemini call abstracted as its outcome: some raw response on
success, none when the call throws. On success the response is mapped
by mapResponse; on failure the subject keyword rules are tried, and when
none matches the method throws
(modelled as Except.error with the source's message). -/
def classifyEmail (remote : Option String) (subject : String) :
    Except String CategoryLabel :=
  match remote with
  | some rawResponse => .ok (mapResponse rawResponse)
  | none =>
    match subjectFallbackRule subject with
    | some c => .ok c
    | none => .error "Unable to classify email and no fallback rule matched"

/-- A normalized message (interface EmailMessage in src/types), without
the Date field, which no claim concerns. -/
structure EmailMessage where
  uid : Nat
  messageId : String
  subject : String
  fromAddr : String
  toAddr : String
  body : String
  folder : String
  accountName : String
  flags : List String
deriving DecidableEq, Repr

/-- Decimal digit rendering with structural fuel, the model of
JavaScript number-to-string conversion used in template literals. -/
def decRepAux : Nat → Nat → List Char
  | 0, _ => []
  | fuel + 1, n =>
    if n < 10 then [Nat.digitChar n]
    else decRepAux fuel (n / 10) ++ [Nat.digitChar (n % 10)]

/-- Decimal rendering of a natural number as a char list. -/
def decRep (n : Nat) : List Char :=
  decRepAux (n + 1) n

/-- Decimal rendering of a natural number as a String. -/
def decRepStr (n : Nat) : String :=
  String.mk (decRep n)

/-- The Elasticsearch document id computed in indexEmail and emailExists
(ElasticsearchService.ts lines 109 and 359): the template literal
joining accountName, folder and uid with the dash separator. -/
def docId (accountName folder : String) (uid : Nat) : String :=
  accountName ++ "-" ++ folder ++ "-" ++ decRepStr uid

/-- The document id of a message's identity key. -/
def docIdOf (e : EmailMessage) : String :=
  docId e.accountName e.folder e.uid

/-- The per-account watermark key of processEmail (IMAPSyncManager.ts
line 554): accountName joined with the folder by a dash. -/
def accountKey (e : EmailMessage) : String :=
  e.accountName ++ "-" ++ e.folder

/-- Association-list lookup by string key, the model of keyed access to
the document store and to the lastProcessedUID map. -/
def lookupKey {α : Type} : List (String × α) → String → Option α
  | [], _ => none
  | (k', v) :: t, k => if k' = k then some v else lookupKey t k

/-- Removes every entry with the given key. -/
def removeKey {α : Type} : List (String × α) → String → List (String × α)
  | [], _ => []
  | (k', v) :: t, k =>
    if k' = k then removeKey t k else (k', v) :: removeKey t k

/-- Keyed upsert: storing under an existing id overwrites, the model of
client.index with an explicit id and of Map.prototype.set. -/
def putKey {α : Type} (st : List (String × α)) (k : String) (v : α) :
    List (String × α) :=
  (k, v) :: removeKey st k

/-- Number of entries stored under a key. -/
def countKey {α : Type} : List (String × α) → String → Nat
  | [], _ => 0
  | (k', _) :: t, k => (if k' = k then 1 else 0) + countKey t k

/-- The watermark read this.lastProcessedUID.get(accountKey) || 0. -/
def getWM (wm : List (String × Nat)) (key : String) : Nat :=
  (lookupKey wm key).getD 0

/-- A persisted record: the message plus its optional category
(IndexedEmailWithCategory, without the timestamp fields). -/
structure IndexedEmailWithCategory where
  email : EmailMessage
  category : Option CategoryLabel
deriving DecidableEq, Repr

/-- Outcome of the categorization collaborator for one message:
the service was never constructed, the categorize call threw, or it
returned a category. -/
inductive CatOutcome where
  | unavailableService
  | failure
  | success (c : CategoryLabel)
deriving DecidableEq, Repr

/-- The external outcomes one run of processEmail can encounter: the
categorization outcome, whether the store write succeeds, and whether
the store lookup behind the existence check throws. -/
structure PipelineEnv where
  cat : CatOutcome
  indexOk : Bool
  existsFail : Bool
deriving DecidableEq, Repr

/-- Mutable state touched by processEmail: the document store, the
lastProcessedUID map, the dispatched notifications, and a count of
classification calls made. -/
structure SyncState where
  store : List (String × IndexedEmailWithCategory)
  lastProcessedUID : List (String × Nat)
  notified : List String
  classifierCalls : Nat
deriving DecidableEq, Repr

/-- ElasticsearchService.emailExists (lines 357-371): returns the
boolean of client.exists, and false when that call throws (the catch
branch logs and returns false). -/
def emailExists (resp : Except String Bool) : Bool :=
  match resp with
  | .ok b => b
  | .error _ => false

/-- The existence check as processEmail sees it: the client lookup
reflects the store content unless it fails, in which case emailExists
reports false. -/
def emailExistsCheck (env : PipelineEnv) (st : SyncState) (e : EmailMessage) :
    Bool :=
  emailExists
    (if env.existsFail then .error "lookup failed"
     else .ok (lookupKey st.store (docIdOf e)).isSome)

/-- The category the pipeline attaches to the record: present exactly
when the categorize call succeeded. -/
def categoryOf (env : PipelineEnv) : Option CategoryLabel :=
  match env.cat with
  | .success c => some c
  | _ => none

/-- Number of classification calls processEmail makes past the
existence check: none when the service is unavailable, one otherwise. -/
def classifierCallsOf (env : PipelineEnv) : Nat :=
  match env.cat with
  | .unavailableService => 0
  | _ => 1

/-- Notifications dispatched for the message: exactly when the
categorize call succeeded with INTERESTED (IMAPSyncManager.ts 580-583). -/
def notificationsOf (env : PipelineEnv) (e : EmailMessage) : List String :=
  match env.cat with
  | .success c => if c = .INTERESTED then [docIdOf e] else []
  | _ => []

/-- The record handed to indexEmail. -/
def recordOf (env : PipelineEnv) (e : EmailMessage) : IndexedEmailWithCategory :=
  ⟨e, categoryOf env⟩

/-- IMAPSyncManager.processEmail (lines 540-618): existence check, then
watermark advance, categorization with its errors caught, conditional
notification, and the store write; a failing store write is caught by
the outer catch and leaves the earlier effects in place. -/
def processEmail (env : PipelineEnv) (st : SyncState) (e : EmailMessage) :
    SyncState :=
  if emailExistsCheck env st e then st
  else
    { store :=
        if env.indexOk then putKey st.store (docIdOf e) (recordOf env e)
        else st.store
      lastProcessedUID :=
        if e.uid > getWM st.lastProcessedUID (accountKey e) then
          putKey st.lastProcessedUID (accountKey e) e.uid
        else st.lastProcessedUID
      notified := st.notified ++ notificationsOf env e
      classifierCalls := st.classifierCalls + classifierCallsOf env }

/-- Maximum of a list of UIDs, the model of Math.max(...uids) over a
non-empty batch. -/
def maxUID (uids : List Nat) : Nat :=
  uids.foldr max 0

/-- The watermark initialization of syncRecentEmails (IMAPSyncManager.ts
lines 353-361): when the fetched batch is non-empty, set the account's
INBOX watermark to the highest UID of the batch, before any message of
the batch is processed. -/
def setInitialWatermark (wm : List (String × Nat)) (accountName : String)
    (uids : List Nat) : List (String × Nat) :=
  if uids = [] then wm
  else putKey wm (accountName ++ "-INBOX") (maxUID uids)

/-- Outcome of one notification sink. -/
inductive SinkOutcome where
  | skipped
  | sent
  | failedLogged
deriving DecidableEq, Repr

/-- Model of one axios.post call: it either resolves or rejects. -/
def axiosPost (fails : Bool) : Except String Unit :=
  if fails then .error "request failed" else .ok ()

/-- NotificationService.sendSlackNotification (part_007 lines 135-186):
returns at once when the webhook url is unconfigured, otherwise posts
and catches any failure, logging it. -/
def sendSlackNotification (slackWebhookUrl : String) (postFails : Bool) :
    Except String SinkOutcome :=
  if slackWebhookUrl = "" then .ok .skipped
  else
    match axiosPost postFails with
    | .ok _ => .ok .sent
    | .error _ => .ok .failedLogged

/-- NotificationService.triggerWebhook (part_007 lines 188-207): same
shape for the generic external webhook. -/
def triggerWebhook (externalWebhookUrl : String) (postFails : Bool) :
    Except String SinkOutcome :=
  if externalWebhookUrl = "" then .ok .skipped
  else
    match axiosPost postFails with
    | .ok _ => .ok .sent
    | .error _ => .ok .failedLogged

/-- NotificationService.notifyInterestedEmail (part_007 lines 209-214):
Promise.all over the two sinks, which rejects only if a sink rejects. -/
def notifyInterestedEmail (slackWebhookUrl externalWebhookUrl : String)
    (slackPostFails externalPostFails : Bool) :
    Except String (SinkOutcome × SinkOutcome) := do
  let a ← sendSlackNotification slackWebhookUrl slackPostFails
  let b ← triggerWebhook externalWebhookUrl externalPostFails
  pure (a, b)

/-- A structured address record as mailparser yields it: text and
address properties, each possibly absent. -/
structure AddressObject where
  text : Option String
  address : Option String
deriving DecidableEq, Repr

/-- The three shapes of a parsed address field: absent, an array of
records, or a single record. -/
inductive AddressValue where
  | absent
  | many (records : List AddressObject)
  | one (record : AddressObject)
deriving DecidableEq, Repr

/-- Model of the JavaScript or-chain x || y over optional strings:
a missing or empty string falls through to the default. -/
def jsStrOr (x : Option String) (dflt : String) : String :=
  match x with
  | none => dflt
  | some s => if s = "" then dflt else s

/-- getEmailText (IMAPSyncManager.ts lines 404-410): empty when the
value is absent, the comma-joined per-record texts for an array, and
text || address || empty for a single record. -/
def getEmailText : AddressValue → String
  | .absent => ""
  | .many rs =>
    String.intercalate ", " (rs.map (fun a => jsStrOr a.text (jsStrOr a.address "")))
  | .one a => jsStrOr a.text (jsStrOr a.address "")

/-- Modelled from the spec: the display string of one structured
address record, its display text falling back to its bare address,
else empty. -/
def specDisplay (a : AddressObject) : String :=
  match a.text with
  | some t => if t = "" then (match a.address with
      | some s => if s = "" then "" else s
      | none => "") else t
  | none =>
    match a.address with
    | some s => if s = "" then "" else s
    | none => ""

/-- Modelled from the spec: address-field flattening as the claim words
it: empty when absent, comma-joined display strings for a list,
and the single record's display string. -/
def specFlatten : AddressValue → String
  | .absent => ""
  | .many rs => String.intercalate ", " (rs.map specDisplay)
  | .one a => specDisplay a

/-- A concrete normalized message used by the witnesses. -/
def sampleEmail : EmailMessage :=
  ⟨7, "mid-1", "Quarterly report", "alice@example.com", "bob@example.com",
    "Hello", "INBOX", "acct", []⟩

/-- The state before any message was processed. -/
def emptyState : SyncState := ⟨[], [], [], 0⟩

/-- A concrete persisted record for sampleEmail. -/
def sampleRecord : IndexedEmailWithCategory := ⟨sampleEmail, some .INTERESTED⟩

/-- A state whose store already holds sampleEmail's identity key. -/
def dupState : SyncState := ⟨[(docIdOf sampleEmail, sampleRecord)], [], [], 0⟩

end IMAPSync

namespace IMAPSync

/-- Helper: looking up the key just stored finds the stored value. -/
theorem lookupKey_putKey_self {α : Type} (st : List (String × α)) (k : String) (v : α) :
    lookupKey (putKey st k v) k = some v := by
  simp [putKey, lookupKey]

/-- Helper: removing a key leaves no entry stored under it. -/
theorem countKey_removeKey_self {α : Type} (st : List (String × α)) (k : String) :
    countKey (removeKey st k) k = 0 := by
  induction st with
  | nil => rfl
  | cons p t ih =>
    cases p with
    | mk k' v => by_cases h : k' = k <;> simp [removeKey, countKey, h, ih]

/-- Helper: a keyed upsert leaves exactly one entry under its key. -/
theorem countKey_putKey_self {α : Type} (st : List (String × α)) (k : String) (v : α) :
    countKey (putKey st k v) k = 1 := by
  simp [putKey, countKey, countKey_removeKey_self]

/-- Helper: the watermark read after a watermark write. -/
theorem getWM_putKey_self (wm : List (String × Nat)) (k : String) (v : Nat) :
    getWM (putKey wm k v) k = v := by
  simp [getWM, lookupKey_putKey_self]

/-- Helper: the slack sink resolves for every configuration, and posts
whenever it is configured. -/
theorem sink_slack_ok (su : String) (sf : Bool) :
    ∃ a, sendSlackNotification su sf = .ok a ∧ (su ≠ "" → a ≠ .skipped) := by
  by_cases hsu : su = ""
  · exact ⟨.skipped, by simp [sendSlackNotification, hsu], fun h => absurd hsu h⟩
  · cases sf
    · exact ⟨.sent, by simp [sendSlackNotification, hsu, axiosPost], fun _ => by decide⟩
    · exact ⟨.failedLogged, by simp [sendSlackNotification, hsu, axiosPost], fun _ => by decide⟩

/-- Helper: the generic webhook sink resolves for every configuration,
and posts whenever it is configured. -/
theorem sink_webhook_ok (eu : String) (ef : Bool) :
    ∃ b, triggerWebhook eu ef = .ok b ∧ (eu ≠ "" → b ≠ .skipped) := by
  by_cases heu : eu = ""
  · exact ⟨.skipped, by simp [triggerWebhook, heu], fun h => absurd heu h⟩
  · cases ef
    · exact ⟨.sent, by simp [triggerWebhook, heu, axiosPost], fun _ => by decide⟩
    · exact ⟨.failedLogged, by simp [triggerWebhook, heu, axiosPost], fun _ => by decide⟩

/-- Helper: the display string of one record agrees with the spec's
description of it. -/
theorem display_eq (a : AddressObject) :
    jsStrOr a.text (jsStrOr a.address "") = specDisplay a := by
  rcases a with ⟨t, ad⟩
  cases t <;> cases ad <;> simp [jsStrOr, specDisplay]

/-- Helper: decRepAux does not depend on the fuel once it exceeds n. -/
theorem decRepAux_fuel (f₁ : Nat) : ∀ (f₂ n : Nat), n < f₁ → n < f₂ →
    decRepAux f₁ n = decRepAux f₂ n := by
  induction f₁ with
  | zero => intro f₂ n h₁ _; omega
  | succ f ih =>
    intro f₂ n h₁ h₂
    cases f₂ with
    | zero => omega
    | succ f' =>
      simp only [decRepAux]
      by_cases h : n < 10
      · simp [h]
      · have hdiv : n / 10 < n := Nat.div_lt_self (by omega) (by omega)
        simp only [h, if_false]
        rw [ih f' (n / 10) (by omega) (by omega)]

/-- Helper: decimal rendering of a one-digit number. -/
theorem decRep_lt10 (n : Nat) (h : n < 10) : decRep n = [Nat.digitChar n] := by
  simp [decRep, decRepAux, h]

/-- Helper: decimal rendering peels off the last digit. -/
theorem decRep_ge10 (n : Nat) (h : 10 ≤ n) :
    decRep n = decRep (n / 10) ++ [Nat.digitChar (n % 10)] := by
  have hdiv : n / 10 < n := Nat.div_lt_self (by omega) (by omega)
  conv_lhs => rw [decRep]; simp only [decRepAux]
  rw [if_neg (show ¬ n < 10 by omega)]
  rw [decRepAux_fuel n (n / 10 + 1) (n / 10) (by omega) (by omega)]
  rfl

/-- Helper: decimal rendering is never empty. -/
theorem decRep_ne_nil (n : Nat) : decRep n ≠ [] := by
  by_cases h : n < 10
  · rw [decRep_lt10 n h]; simp
  · rw [decRep_ge10 n (by omega)]; simp

/-- Helper: digit characters are distinct below 10. -/
theorem digitChar_inj (a b : Nat) (ha : a < 10) (hb : b < 10)
    (h : Nat.digitChar a = Nat.digitChar b) : a = b := by
  interval_cases a <;> interval_cases b <;> revert h <;> decide

/-- Helper: no digit character is the dash separator. -/
theorem digitChar_ne_dash (d : Nat) (h : d < 10) : Nat.digitChar d ≠ '-' := by
  interval_cases d <;> decide

/-- Helper: the decimal rendering never contains the dash separator. -/
theorem dash_not_mem_decRep (n : Nat) : '-' ∉ decRep n := by
  induction n using Nat.strong_induction_on with
  | _ n ih =>
    by_cases h : n < 10
    · rw [decRep_lt10 n h]
      simp only [List.mem_singleton]
      exact fun hh => digitChar_ne_dash n h hh.symm
    · rw [decRep_ge10 n (by omega)]
      simp only [List.mem_append, List.mem_singleton]
      push_neg
      constructor
      · exact ih (n / 10) (Nat.div_lt_self (by omega) (by omega))
      · exact fun hh => digitChar_ne_dash (n % 10) (Nat.mod_lt _ (by omega)) hh.symm

/-- Helper: decimal rendering is injective. -/
theorem decRep_inj : ∀ (m n : Nat), decRep m = decRep n → m = n := by
  intro m
  induction m using Nat.strong_induction_on with
  | _ m ih =>
    intro n h
    by_cases hm : m < 10 <;> by_cases hn : n < 10
    · rw [decRep_lt10 m hm, decRep_lt10 n hn] at h
      exact digitChar_inj m n hm hn (List.singleton_inj.mp h)
    · exfalso
      rw [decRep_lt10 m hm, decRep_ge10 n (by omega)] at h
      have hl := congrArg List.length h
      simp only [List.length_append, List.length_singleton] at hl
      have hz : (decRep (n / 10)).length = 0 := by omega
      exact decRep_ne_nil (n / 10) (List.length_eq_zero.mp hz)
    · exfalso
      rw [decRep_ge10 m (by omega), decRep_lt10 n hn] at h
      have hl := congrArg List.length h
      simp only [List.length_append, List.length_singleton] at hl
      have hz : (decRep (m / 10)).length = 0 := by omega
      exact decRep_ne_nil (m / 10) (List.length_eq_zero.mp hz)
    · rw [decRep_ge10 m (by omega), decRep_ge10 n (by omega)] at h
      obtain ⟨h1, h2⟩ := List.append_inj' h (by simp)
      have hdiv : m / 10 = n / 10 :=
        ih (m / 10) (Nat.div_lt_self (by omega) (by omega)) (n / 10) h1
      have hmod : m % 10 = n % 10 :=
        digitChar_inj _ _ (Nat.mod_lt _ (by omega)) (Nat.mod_lt _ (by omega))
          (List.singleton_inj.mp h2)
      omega

/-- Helper: splitting at a dash is unambiguous when neither left part
contains a dash. -/
theorem append_dash_inj : ∀ (xs zs ys ws : List Char), '-' ∉ xs → '-' ∉ zs →
    xs ++ '-' :: ys = zs ++ '-' :: ws → xs = zs ∧ ys = ws := by
  intro xs
  induction xs with
  | nil =>
    intro zs ys ws _ hz h
    cases zs with
    | nil => simpa using h
    | cons z zt =>
      exfalso
      simp only [List.nil_append, List.cons_append, List.cons.injEq] at h
      exact hz (h.1 ▸ List.mem_cons_self z zt)
  | cons x xt ih =>
    intro zs ys ws hx hz h
    cases zs with
    | nil =>
      exfalso
      simp only [List.cons_append, List.nil_append, List.cons.injEq] at h
      exact hx (h.1 ▸ List.mem_cons_self x xt)
    | cons z zt =>
      simp only [List.cons_append, List.cons.injEq] at h
      obtain ⟨hxz, htail⟩ := h
      have hx' : '-' ∉ xt := fun hm => hx (List.mem_cons_of_mem x hm)
      have hz' : '-' ∉ zt := fun hm => hz (List.mem_cons_of_mem z hm)
      obtain ⟨h1, h2⟩ := ih zt ys ws hx' hz' htail
      exact ⟨by rw [hxz, h1], h2⟩

/-- Helper: the char list underlying a document id. -/
theorem docId_data (a f : String) (u : Nat) :
    (docId a f u).data = a.data ++ '-' :: (f.data ++ '-' :: decRep u) := by
  simp [docId, decRepStr, String.data_append]

/-- Helper: strings with equal char lists are equal. -/
theorem string_of_data {s₁ s₂ : String} (h : s₁.data = s₂.data) : s₁ = s₂ := by
  cases s₁; cases s₂; exact congrArg String.mk h

end IMAPSync

namespace IMAPSync

/-- C1: the claim states that mapping a classifier response uses
exact-token matching, so the trimmed upper-cased response NOT_INTERESTED
maps to NOT_INTERESTED and never INTERESTED. The code instead scans
validCategories for substring containment with INTERESTED first, so the
exact token NOT_INTERESTED is mapped to INTERESTED: this theorem
evaluates the embedded mapping at that failing input. -/
theorem C1_exact_token_mapping_code_eval :
    mapResponse "NOT_INTERESTED" = .INTERESTED
    ∧ mapResponse "NOT_INTERESTED" ≠ .NOT_INTERESTED := by
  decide

/-- C2: pipeline ingestion is idempotent per identity key: running
processEmail twice on the same message, starting from a store that does
not yet hold its identity key and with the first run's persistence
succeeding, leaves exactly one persisted record under the key; the
second run's existence check short-circuits. -/
theorem C2_pipeline_idempotent_per_identity_key
    (env₁ env₂ : PipelineEnv) (st : SyncState) (e : EmailMessage)
    (hidx : env₁.indexOk = true)
    (habs : lookupKey st.store (docIdOf e) = none)
    (hef₂ : env₂.existsFail = false) :
    countKey (processEmail env₂ (processEmail env₁ st e) e).store (docIdOf e) = 1 := by
  have hchk₁ : emailExistsCheck env₁ st e = false := by
    cases h : env₁.existsFail <;> simp [emailExistsCheck, h, emailExists, habs]
  set st₁ := processEmail env₁ st e with hst₁
  have hstore₁ : st₁.store = putKey st.store (docIdOf e) (recordOf env₁ e) := by
    rw [hst₁]; simp [processEmail, hchk₁, hidx]
  have hchk₂ : emailExistsCheck env₂ st₁ e = true := by
    simp [emailExistsCheck, hef₂, emailExists, hstore₁, lookupKey_putKey_self]
  have hfix : processEmail env₂ st₁ e = st₁ := by
    unfold processEmail; rw [hchk₂]; simp
  rw [hfix, hstore₁, countKey_putKey_self]

/-- C2 witness: the idempotence theorem applied to a concrete message,
an empty store and concrete collaborator outcomes. -/
theorem C2_pipeline_idempotent_witness :
    countKey (processEmail ⟨.success .SPAM, true, false⟩
      (processEmail ⟨.failure, true, false⟩ emptyState sampleEmail) sampleEmail).store
      (docIdOf sampleEmail) = 1 :=
  C2_pipeline_idempotent_per_identity_key ⟨.failure, true, false⟩
    ⟨.success .SPAM, true, false⟩ emptyState sampleEmail rfl rfl rfl

/-- C3 counterexample: the claim states the watermark is updated only
after successful processing, never merely after fetch. In the code,
processEmail advances the watermark right after the existence check,
before persistence: with a failing store write the watermark becomes 7
while nothing was persisted; and syncRecentEmails sets the initial
watermark to the maximum fetched UID before processing the batch. -/
theorem C3_watermark_counterexample :
    getWM (processEmail ⟨.failure, false, false⟩ emptyState sampleEmail).lastProcessedUID
      (accountKey sampleEmail) = 7
    ∧ (processEmail ⟨.failure, false, false⟩ emptyState sampleEmail).store = []
    ∧ getWM (setInitialWatermark [] "acct" [5]) "acct-INBOX" = 5 := by
  decide

/-- C3 amended: the watermark is advanced eagerly, not after successful
processing: backfill sets it to the maximum UID of the fetched batch
before the batch is processed, and processEmail raises it to the
message's UID right after a passing existence check, whatever the
categorization and persistence outcomes; it never decreases. -/
theorem C3_watermark_amended :
    (∀ (wm : List (String × Nat)) (acct : String) (uids : List Nat),
        uids ≠ [] →
        getWM (setInitialWatermark wm acct uids) (acct ++ "-INBOX") = maxUID uids)
    ∧ (∀ (env : PipelineEnv) (st : SyncState) (e : EmailMessage),
        getWM (processEmail env st e).lastProcessedUID (accountKey e) =
          if emailExistsCheck env st e then getWM st.lastProcessedUID (accountKey e)
          else max (getWM st.lastProcessedUID (accountKey e)) e.uid) := by
  constructor
  · intro wm acct uids hne
    simp [setInitialWatermark, hne, getWM_putKey_self]
  · intro env st e
    by_cases hchk : emailExistsCheck env st e = true
    · simp [processEmail, hchk]
    · have hchk' : emailExistsCheck env st e = false := by
        revert hchk; cases emailExistsCheck env st e <;> simp
      by_cases huid : e.uid > getWM st.lastProcessedUID (accountKey e)
      · simp [processEmail, hchk', huid, getWM_putKey_self]
        omega
      · simp [processEmail, hchk', huid]
        omega

/-- C3 witness: the amended watermark law applied to a concrete fetched
batch. -/
theorem C3_watermark_amended_witness :
    getWM (setInitialWatermark [] "acct" [5, 3]) ("acct" ++ "-INBOX") = maxUID [5, 3] :=
  C3_watermark_amended.1 [] "acct" [5, 3] (by decide)

/-- C4 counterexample: the claim states that when the remote
classification call fails and no keyword rule matches, a final static
default category is returned, so classify never yields an error. The
code instead throws: on a failing remote call with the subject
"Hello there" no keyword rule matches and classifyEmail returns the
error, not a category. -/
theorem C4_fallback_counterexample :
    classifyEmail none "Hello there" =
      .error "Unable to classify email and no fallback rule matched" := by
  rfl

/-- C4 amended: the fallback ladder is total up to a signalled failure:
classifyEmail returns a category exactly when the remote call succeeded
or a subject keyword rule matched; when the remote call fails and no
rule matches, it returns the fixed error (which the caller catches)
rather than a static default category. -/
theorem C4_fallback_ladder_amended :
    ∀ (remote : Option String) (subject : String),
    ((∃ c, classifyEmail remote subject = .ok c) ↔
      remote.isSome = true ∨ (subjectFallbackRule subject).isSome = true)
    ∧ (remote = none → subjectFallbackRule subject = none →
        classifyEmail remote subject =
          .error "Unable to classify email and no fallback rule matched") := by
  intro remote subject
  cases remote with
  | some raw => simp [classifyEmail]
  | none =>
    cases h : subjectFallbackRule subject with
    | some c => simp [classifyEmail, h]
    | none => simp [classifyEmail, h]

/-- C4 witness: the amended ladder applied to a failing remote call with
the spec's meeting-confirmed subject. -/
theorem C4_fallback_ladder_amended_witness :
    ((∃ c, classifyEmail none "Meeting confirmed for Tuesday" = .ok c) ↔
      (none : Option String).isSome = true ∨
        (subjectFallbackRule "Meeting confirmed for Tuesday").isSome = true)
    ∧ ((none : Option String) = none →
        subjectFallbackRule "Meeting confirmed for Tuesday" = none →
        classifyEmail none "Meeting confirmed for Tuesday" =
          .error "Unable to classify email and no fallback rule matched") :=
  C4_fallback_ladder_amended none "Meeting confirmed for Tuesday"

/-- C5: a classification failure never aborts persistence: when the
message passes the existence check and the categorize call throws or the
categorization service is unavailable, the record is still written to
the store, with no category attached. -/
theorem C5_classification_failure_still_persists
    (env : PipelineEnv) (st : SyncState) (e : EmailMessage)
    (hcat : env.cat = .failure ∨ env.cat = .unavailableService)
    (hidx : env.indexOk = true)
    (hchk : emailExistsCheck env st e = false) :
    lookupKey (processEmail env st e).store (docIdOf e) = some ⟨e, none⟩ := by
  have hco : categoryOf env = none := by
    rcases hcat with h | h <;> simp [categoryOf, h]
  simp [processEmail, hchk, hidx, lookupKey_putKey_self, recordOf, hco]

/-- C5 witness: a concrete message whose categorize call throws is still
persisted without a category. -/
theorem C5_classification_failure_witness :
    lookupKey (processEmail ⟨.failure, true, false⟩ emptyState sampleEmail).store
      (docIdOf sampleEmail) = some ⟨sampleEmail, none⟩ :=
  C5_classification_failure_still_persists ⟨.failure, true, false⟩ emptyState sampleEmail
    (Or.inl rfl) rfl (by decide)

/-- C6: duplicate delivery short-circuits with no side effects: when the
store already holds the message's identity key (and the lookup does not
fail), processEmail returns the state unchanged — no store write, no
notification, no watermark update, no classification call (the
classifier-call counter is part of the state), and no error (the
function is total). -/
theorem C6_duplicate_short_circuit_no_effects
    (env : PipelineEnv) (st : SyncState) (e : EmailMessage)
    (r : IndexedEmailWithCategory)
    (hef : env.existsFail = false)
    (hr : lookupKey st.store (docIdOf e) = some r) :
    processEmail env st e = st := by
  have hchk : emailExistsCheck env st e = true := by
    simp [emailExistsCheck, hef, emailExists, hr]
  simp [processEmail, hchk]

/-- C6 witness: redelivery of a concrete already-indexed message leaves
the state untouched. -/
theorem C6_duplicate_short_circuit_witness :
    processEmail ⟨.success .INTERESTED, true, false⟩ dupState sampleEmail = dupState :=
  C6_duplicate_short_circuit_no_effects ⟨.success .INTERESTED, true, false⟩ dupState
    sampleEmail sampleRecord rfl (by decide)

/-- C7: notification sinks are mutually independent: for every
configuration and post outcome, notifyInterestedEmail resolves (never an
error to its caller), each sink's result is the result of running that
sink alone, and each configured sink is attempted (not skipped)
regardless of the other sink's configuration or failure. -/
theorem C7_notification_sinks_independent :
    ∀ (slackUrl extUrl : String) (slackFails extFails : Bool),
    ∃ a b, notifyInterestedEmail slackUrl extUrl slackFails extFails = .ok (a, b)
      ∧ sendSlackNotification slackUrl slackFails = .ok a
      ∧ triggerWebhook extUrl extFails = .ok b
      ∧ (slackUrl ≠ "" → a ≠ .skipped)
      ∧ (extUrl ≠ "" → b ≠ .skipped) := by
  intro su eu sf ef
  obtain ⟨a, ha, ha'⟩ := sink_slack_ok su sf
  obtain ⟨b, hb, hb'⟩ := sink_webhook_ok eu ef
  refine ⟨a, b, ?_, ha, hb, ha', hb'⟩
  simp [notifyInterestedEmail, ha, hb, Bind.bind, Except.bind, pure, Except.pure]

/-- C7 witness: a failing chat webhook next to an unconfigured generic
webhook still resolves. -/
theorem C7_notification_sinks_witness :
    ∃ a b, notifyInterestedEmail "https://hooks.example" "" true false = .ok (a, b)
      ∧ sendSlackNotification "https://hooks.example" true = .ok a
      ∧ triggerWebhook "" false = .ok b
      ∧ ("https://hooks.example" ≠ "" → a ≠ .skipped)
      ∧ ("" ≠ "" → b ≠ .skipped) :=
  C7_notification_sinks_independent "https://hooks.example" "" true false

/-- C8: address-field flattening is total over the three underlying
shapes and agrees with the spec's description: empty when absent, the
comma-joined display texts falling back to bare addresses for a list of
records, and the single record's display text falling back to its bare
address, else empty. -/
theorem C8_address_flattening_total :
    ∀ (v : AddressValue), getEmailText v = specFlatten v := by
  intro v
  cases v with
  | absent => rfl
  | many rs => simp [getEmailText, specFlatten, display_eq]
  | one a => simp [getEmailText, specFlatten, display_eq]

/-- C9 counterexample: the claim states that joining accountName,
folder and uid with a dash is injective. It is not: the distinct
identity triples of accounts "a-b" with folder "c" and "a" with folder
"b-c" produce the same document id. -/
theorem C9_docid_join_counterexample :
    docId "a-b" "c" 1 = docId "a" "b-c" 1
    ∧ ("a-b", "c", (1 : Nat)) ≠ ("a", "b-c", (1 : Nat)) := by
  decide

/-- C9 amended: the document-id encoding is injective on identity
triples whose accountName and folder contain no dash separator: two
such triples with equal document ids are equal. -/
theorem C9_docid_injective_dash_free
    (a₁ f₁ : String) (u₁ : Nat) (a₂ f₂ : String) (u₂ : Nat)
    (ha₁ : '-' ∉ a₁.data) (hf₁ : '-' ∉ f₁.data)
    (ha₂ : '-' ∉ a₂.data) (hf₂ : '-' ∉ f₂.data)
    (h : docId a₁ f₁ u₁ = docId a₂ f₂ u₂) :
    a₁ = a₂ ∧ f₁ = f₂ ∧ u₁ = u₂ := by
  have hd := congrArg String.data h
  rw [docId_data, docId_data] at hd
  obtain ⟨h1, h2⟩ := append_dash_inj _ _ _ _ ha₁ ha₂ hd
  obtain ⟨h3, h4⟩ := append_dash_inj _ _ _ _ hf₁ hf₂ h2
  exact ⟨string_of_data h1, string_of_data h3, decRep_inj u₁ u₂ h4⟩

/-- C9 witness: the amended injectivity applied to concrete dash-free
account and folder names. -/
theorem C9_docid_injective_witness :
    "acct" = "acct" ∧ "INBOX" = "INBOX" ∧ (3 : Nat) = 3 :=
  C9_docid_injective_dash_free "acct" "INBOX" 3 "acct" "INBOX" 3
    (by decide) (by decide) (by decide) (by decide) rfl

/-- C10: the existence check is total and fails open: emailExists maps
every outcome of the underlying store lookup to a boolean (no error
reaches the caller), and reports present exactly when the lookup
succeeded with true — in particular a failing lookup yields false, so
the message is treated as absent and reprocessed. -/
theorem C10_exists_check_fails_open :
    ∀ (resp : Except String Bool), emailExists resp = true ↔ resp = .ok true := by
  intro resp
  cases resp with
  | ok b => cases b <;> simp [emailExists]
  | error m => simp [emailExists]

end IMAPSync
